import Mathlib

/-!
Verification development for the MITR AI therapeutic-chat orchestration pipeline.

This file gives a shallow embedding of the pipeline's pure data flow:
the emotion-analysis flow, the enhanced context-management flow (with its
in-memory therapeutic knowledge base and keyword matcher), the comprehensive
orchestrator flow (with its stubbed health stage and fallback merge), the fast
flow, and the chat-interface alert logic.

Modelling conventions:
- Every external model call made through a defined prompt is modelled as a
  function supplied in a `ModelOracles` record.  A call either throws
  (`Except.error`) or returns an output object that may be absent
  (`Except.ok none`), mirroring the host framework's nullable `output` field.
- JavaScript numbers are modelled as rationals, strings as `String`.
- JavaScript truthiness in fallback expressions (the `||` operator and
  ternaries) is modelled by the `jsOr*` helpers: a number is falsy exactly
  when it is 0, a string exactly when it is empty, and an absent optional is
  falsy; objects and arrays are always truthy.
- `JSON.stringify` is modelled by deterministic total rendering functions;
  no claim depends on the exact rendered text.
- `Math.floor(Math.random() * 15)` in the stubbed health stage is modelled by
  an explicit parameter `rand` (a natural number below 15), and
  `new Date().toISOString()` by an explicit `timestamp` parameter.
-/

namespace MitrAI

/-- JavaScript `||` fallback on an optional number: `undefined`, `null` and
`0` are all falsy and replaced by the default. -/
def jsOrNum (v : Option ℚ) (d : ℚ) : ℚ :=
  match v with
  | none => d
  | some x => if x = 0 then d else x

/-- JavaScript `||` fallback on an optional string: `undefined`, `null` and
the empty string are falsy and replaced by the default. -/
def jsOrStr (v : Option String) (d : String) : String :=
  match v with
  | none => d
  | some s => if s = "" then d else s

/-- JavaScript `x || false` on an optional boolean. -/
def jsOrBool (v : Option Bool) : Bool :=
  match v with
  | none => false
  | some b => b

/-- JavaScript `x || []` on an optional array: an array is truthy even when
empty, so only an absent value is replaced. -/
def jsOrList (v : Option (List String)) : List String :=
  v.getD []

/-- JavaScript string truthiness: a string is truthy iff it is nonempty. -/
def jsTruthyStr (s : String) : Bool :=
  !(s == "")

/-- Substring test modelling JavaScript `String.prototype.includes`. -/
def strIncludes (s sub : String) : Bool :=
  (s.data.tails).any (fun t => sub.data.isPrefixOf t)

/-- Character-wise lowercasing modelling `String.prototype.toLowerCase`
(the messages and keywords involved are ASCII). -/
def strToLower (s : String) : String :=
  String.mk (s.data.map Char.toLower)

/-- Takes the last `n` elements of a list, modelling `Array.prototype.slice(-n)`. -/
def lastN (n : ℕ) (l : List α) : List α :=
  l.drop (l.length - n)

/-- Joins strings with newlines, modelling `Array.prototype.join` with a
newline separator. -/
def joinNl (l : List String) : String :=
  String.intercalate "\n" l

/-- First-occurrence deduplication with an accumulator of already-seen
elements, modelling insertion into a JavaScript `Set` (which keeps the first
occurrence and preserves insertion order). -/
def dedupFirstAux [DecidableEq α] (seen : List α) : List α → List α
  | [] => []
  | a :: l => if a ∈ seen then dedupFirstAux seen l else a :: dedupFirstAux (a :: seen) l

/-- First-occurrence order-preserving deduplication, modelling
`Array.from(new Set(xs))`.  The knowledge-base entries it is applied to are
pairwise distinct values, so value equality coincides with the reference
identity the JavaScript `Set` uses. -/
def dedupFirst [DecidableEq α] (l : List α) : List α :=
  dedupFirstAux [] l

/-- Renders a rational for the pseudo-JSON serializers. -/
def ratStr (q : ℚ) : String :=
  toString q.num ++ "/" ++ toString q.den

/-- Renders an emotion-score map for the pseudo-JSON serializers. -/
def serializeScores (l : List (String × ℚ)) : String :=
  String.intercalate "; " (l.map (fun p => p.1 ++ "=" ++ ratStr p.2))

/-- One turn of conversation history (speaker, message, timestamp, optional
emotion map and intent label). -/
structure ConversationTurn where
  speaker : String
  message : String
  timestamp : String
  emotions : Option (List (String × ℚ)) := none
  intent : Option String := none
  deriving DecidableEq, Repr

/-- Formats one history turn for a prompt context window. -/
def fmtTurn (t : ConversationTurn) : String :=
  t.speaker ++ ": " ++ t.message

/-- Audio features extracted from voice. -/
structure AudioFeatures where
  pitch : Option ℚ := none
  energy : Option ℚ := none
  spectralCentroid : Option ℚ := none
  mfcc : Option (List ℚ) := none
  duration : Option ℚ := none
  deriving DecidableEq, Repr

/-- Avatar expression directive. -/
structure AvatarExpression where
  expression : String
  intensity : ℚ
  duration : ℚ
  deriving DecidableEq, Repr

/-- Output of the facial emotion analysis prompt. -/
structure FacialEmotions where
  primary : String
  confidence : ℚ
  emotions : List (String × ℚ)
  arousal : ℚ
  valence : ℚ
  deriving DecidableEq, Repr

/-- Output of the voice emotion analysis prompt. -/
structure VoiceEmotions where
  primary : String
  confidence : ℚ
  emotions : List (String × ℚ)
  stress : ℚ
  energy : ℚ
  deriving DecidableEq, Repr

/-- Output of the text emotion analysis prompt. -/
structure TextEmotions where
  primary : String
  confidence : ℚ
  emotions : List (String × ℚ)
  sentiment : ℚ
  intensity : ℚ
  deriving DecidableEq, Repr

/-- Output of the multimodal fusion prompt. -/
structure FusionOutput where
  primary : String
  confidence : ℚ
  emotions : List (String × ℚ)
  arousal : ℚ
  valence : ℚ
  distressLevel : ℚ
  recommendations : List String
  avatarExpression : AvatarExpression
  deriving DecidableEq, Repr

/-- Fused emotion record inside the emotion-analysis output. -/
structure FusedEmotions where
  primary : String
  confidence : ℚ
  emotions : List (String × ℚ)
  arousal : ℚ
  valence : ℚ
  distressLevel : ℚ
  deriving DecidableEq, Repr

/-- Input of the emotion-analysis flow. -/
structure EmotionAnalysisInput where
  imageData : Option String := none
  audioFeatures : Option AudioFeatures := none
  textContent : Option String := none
  conversationHistory : Option String := none
  deriving DecidableEq, Repr

/-- Output of the emotion-analysis flow. -/
structure EmotionAnalysisOutput where
  facialEmotions : Option FacialEmotions
  voiceEmotions : Option VoiceEmotions
  textEmotions : Option TextEmotions
  fusedEmotions : FusedEmotions
  recommendations : List String
  avatarExpression : AvatarExpression
  deriving DecidableEq, Repr

/-- Pseudo-JSON rendering of a facial emotion record, modelling
`JSON.stringify(results.facialEmotions)`. -/
def serializeFacial (f : FacialEmotions) : String :=
  "facial(primary=" ++ f.primary ++ "; confidence=" ++ ratStr f.confidence ++
    "; emotions=" ++ serializeScores f.emotions ++ "; arousal=" ++ ratStr f.arousal ++
    "; valence=" ++ ratStr f.valence ++ ")"

/-- Pseudo-JSON rendering of a voice emotion record. -/
def serializeVoice (v : VoiceEmotions) : String :=
  "voice(primary=" ++ v.primary ++ "; confidence=" ++ ratStr v.confidence ++
    "; emotions=" ++ serializeScores v.emotions ++ "; stress=" ++ ratStr v.stress ++
    "; energy=" ++ ratStr v.energy ++ ")"

/-- Pseudo-JSON rendering of a text emotion record. -/
def serializeText (t : TextEmotions) : String :=
  "text(primary=" ++ t.primary ++ "; confidence=" ++ ratStr t.confidence ++
    "; emotions=" ++ serializeScores t.emotions ++ "; sentiment=" ++ ratStr t.sentiment ++
    "; intensity=" ++ ratStr t.intensity ++ ")"

/-- Pseudo-JSON rendering of a fused emotion record, modelling
`JSON.stringify(emotionAnalysis.fusedEmotions)`. -/
def serializeFusedEmotions (f : FusedEmotions) : String :=
  "fused(primary=" ++ f.primary ++ "; confidence=" ++ ratStr f.confidence ++
    "; emotions=" ++ serializeScores f.emotions ++ "; arousal=" ++ ratStr f.arousal ++
    "; valence=" ++ ratStr f.valence ++ "; distressLevel=" ++ ratStr f.distressLevel ++ ")"

/-- Pseudo-JSON rendering of a full emotion-analysis output, modelling
`JSON.stringify(emotionAnalysis)`. -/
def serializeEmotionAnalysis (e : EmotionAnalysisOutput) : String :=
  "emotionAnalysis(" ++
    (match e.facialEmotions with | some f => serializeFacial f | none => "") ++ "; " ++
    (match e.voiceEmotions with | some v => serializeVoice v | none => "") ++ "; " ++
    (match e.textEmotions with | some t => serializeText t | none => "") ++ "; " ++
    serializeFusedEmotions e.fusedEmotions ++ "; recommendations=" ++
    String.intercalate "," e.recommendations ++ ")"

/-- Emotional context scalars forwarded to the context manager. -/
structure EmotionalContext where
  currentEmotion : Option String := none
  emotionIntensity : Option ℚ := none
  emotionTrend : Option String := none
  distressLevel : Option ℚ := none
  deriving DecidableEq, Repr

/-- Health context scalars forwarded to the context manager. -/
structure HealthContext where
  wellnessScore : Option ℚ := none
  stressLevel : Option ℚ := none
  sleepQuality : Option ℚ := none
  activityLevel : Option ℚ := none
  deriving DecidableEq, Repr

/-- User profile data. -/
structure UserProfile where
  therapeuticGoals : Option (List String) := none
  triggers : Option (List String) := none
  copingStrategies : Option (List String) := none
  sessionHistory : Option (List String) := none
  deriving DecidableEq, Repr

/-- Input of the context-management flow. -/
structure ContextManagementInput where
  currentMessage : String
  conversationHistory : List ConversationTurn
  userProfile : Option UserProfile := none
  emotionalContext : Option EmotionalContext := none
  healthContext : Option HealthContext := none
  deriving DecidableEq, Repr

/-- One relevant-context item in the context-management output. -/
structure RelevantContextItem where
  content : String
  relevanceScore : ℚ
  source : String
  timestamp : Option String := none
  deriving DecidableEq, Repr

/-- Therapeutic intent classification result. -/
structure TherapeuticIntent where
  primary : String
  secondary : List String
  confidence : ℚ
  deriving DecidableEq, Repr

/-- Response strategy in the context-management output. -/
structure ResponseStrategy where
  approach : String
  tone : String
  techniques : List String
  avoidances : List String
  deriving DecidableEq, Repr

/-- Contextual factors in the context-management output. -/
structure ContextualFactors where
  emotionalState : String
  urgencyLevel : String
  sessionPhase : String
  therapeuticAlliance : ℚ
  deriving DecidableEq, Repr

/-- One knowledge-base match in the context-management output. -/
structure KnowledgeMatch where
  topic : String
  content : String
  relevanceScore : ℚ
  category : String
  deriving DecidableEq, Repr

/-- Output of the context-management flow. -/
structure ContextManagementOutput where
  relevantContext : List RelevantContextItem
  therapeuticIntent : TherapeuticIntent
  responseStrategy : ResponseStrategy
  contextualFactors : ContextualFactors
  knowledgeBaseMatches : List KnowledgeMatch
  adaptivePrompt : String
  deriving DecidableEq, Repr

/-- One entry of the in-memory therapeutic knowledge base. -/
structure KnowledgeEntry where
  topic : String
  content : String
  category : String
  keywords : List String
  deriving DecidableEq, Repr

/-- Knowledge-base entry on active listening. -/
def kbActiveListening : KnowledgeEntry :=
  { topic := "Active Listening"
    content := "Reflect back what you hear, validate emotions, ask open-ended questions, avoid judgment"
    category := "communication_techniques"
    keywords := ["listening", "validation", "empathy", "understanding"] }

/-- Knowledge-base entry on cognitive behavioral therapy. -/
def kbCbt : KnowledgeEntry :=
  { topic := "Cognitive Behavioral Therapy"
    content := "Help identify thought patterns, challenge negative thinking, explore behavior-emotion connections"
    category := "therapeutic_approaches"
    keywords := ["thoughts", "thinking", "behavior", "patterns", "negative"] }

/-- Knowledge-base entry on mindfulness techniques. -/
def kbMindfulness : KnowledgeEntry :=
  { topic := "Mindfulness Techniques"
    content := "Guide breathing exercises, present-moment awareness, body scans, non-judgmental observation"
    category := "coping_strategies"
    keywords := ["mindfulness", "breathing", "present", "awareness", "meditation"] }

/-- Knowledge-base entry on crisis intervention. -/
def kbCrisis : KnowledgeEntry :=
  { topic := "Crisis Intervention"
    content := "Assess safety, provide immediate support, connect to resources, create safety plan"
    category := "crisis_management"
    keywords := ["crisis", "safety", "emergency", "harm", "suicide", "danger"] }

/-- Knowledge-base entry on anxiety management. -/
def kbAnxiety : KnowledgeEntry :=
  { topic := "Anxiety Management"
    content := "Teach grounding techniques, progressive muscle relaxation, exposure therapy principles"
    category := "anxiety_support"
    keywords := ["anxiety", "worry", "fear", "panic", "nervous", "stressed"] }

/-- Knowledge-base entry on depression support. -/
def kbDepression : KnowledgeEntry :=
  { topic := "Depression Support"
    content := "Validate feelings, encourage small steps, behavioral activation, hope instillation"
    category := "depression_support"
    keywords := ["depression", "sad", "hopeless", "empty", "worthless", "tired"] }

/-- Knowledge-base entry on trauma-informed care. -/
def kbTrauma : KnowledgeEntry :=
  { topic := "Trauma-Informed Care"
    content := "Create safety, avoid re-traumatization, respect autonomy, build trust gradually"
    category := "trauma_support"
    keywords := ["trauma", "abuse", "ptsd", "flashbacks", "triggers", "safety"] }

/-- Knowledge-base entry on motivational interviewing. -/
def kbMotivational : KnowledgeEntry :=
  { topic := "Motivational Interviewing"
    content := "Explore ambivalence, enhance motivation, support self-efficacy, avoid confrontation"
    category := "change_facilitation"
    keywords := ["motivation", "change", "ambivalence", "goals", "commitment"] }

/-- The fixed in-memory therapeutic knowledge base (8 curated entries). -/
def therapeuticKnowledgeBase : List KnowledgeEntry :=
  [kbActiveListening, kbCbt, kbMindfulness, kbCrisis, kbAnxiety, kbDepression,
   kbTrauma, kbMotivational]

/-- The fixed emotion-to-keyword mapping used by the knowledge matcher; an
unknown emotion label maps to the empty keyword list (`|| []`). -/
def emotionKeywords : String → List String
  | "anxious" => ["anxiety", "worry", "fear"]
  | "sad" => ["depression", "sad", "hopeless"]
  | "angry" => ["anger", "frustration", "irritation"]
  | "stressed" => ["stress", "overwhelm", "pressure"]
  | "confused" => ["confusion", "uncertainty", "clarity"]
  | "hopeful" => ["hope", "optimism", "positive"]
  | _ => []

/-- Keyword filter of the knowledge matcher: entries one of whose keywords
occurs as a substring of the lowercased message. -/
def relevantKnowledgeFor (message : String) : List KnowledgeEntry :=
  therapeuticKnowledgeBase.filter
    (fun item => item.keywords.any (fun keyword => strIncludes (strToLower message) keyword))

/-- Emotion filter of the knowledge matcher: when a (truthy) current-emotion
label is supplied, entries whose keywords intersect the fixed emotion
keyword mapping. -/
def emotionMatchesFor (emotionalContext : Option EmotionalContext) : List KnowledgeEntry :=
  match emotionalContext.bind (fun ec => ec.currentEmotion) with
  | some emo =>
    if jsTruthyStr emo then
      therapeuticKnowledgeBase.filter
        (fun item => (emotionKeywords emo).any (fun key => item.keywords.contains key))
    else []
  | none => []

/-- The knowledge matcher: the keyword filter result, followed by the
emotion filter result, deduplicated keeping first occurrences and truncated
to the top 5. -/
def findRelevantKnowledge (message : String) (emotionalContext : Option EmotionalContext) :
    List KnowledgeEntry :=
  (dedupFirst (relevantKnowledgeFor message ++ emotionMatchesFor emotionalContext)).take 5

/-- Overall wellness block of the wearables analysis output. -/
structure OverallWellness where
  score : ℚ
  trend : String
  primaryConcerns : List String
  deriving DecidableEq, Repr

/-- Physical health block of the wearables analysis output. -/
structure PhysicalHealth where
  cardiovascularHealth : ℚ
  sleepQuality : ℚ
  activityLevel : ℚ
  recoveryStatus : String
  deriving DecidableEq, Repr

/-- Mood indicator scores of the wearables analysis output. -/
structure MoodIndicators where
  calm : ℚ
  energetic : ℚ
  focused : ℚ
  deriving DecidableEq, Repr

/-- Mental health block of the wearables analysis output. -/
structure MentalHealth where
  stressLevel : ℚ
  fatigueLevel : ℚ
  moodIndicators : MoodIndicators
  cognitiveLoad : ℚ
  deriving DecidableEq, Repr

/-- Recommendation lists of the wearables analysis output. -/
structure WearablesRecommendations where
  immediate : List String
  shortTerm : List String
  longTerm : List String
  deriving DecidableEq, Repr

/-- Therapeutic insights block of the wearables analysis output. -/
structure TherapeuticInsights where
  emotionalState : String
  stressFactors : List String
  copingCapacity : ℚ
  interventionNeeded : Bool
  deriving DecidableEq, Repr

/-- One health alert of the wearables analysis output. -/
structure HealthAlert where
  type : String
  severity : String
  message : String
  deriving DecidableEq, Repr

/-- Output shape of the wearables analysis stage. -/
structure WearablesAnalysisOutput where
  overallWellness : OverallWellness
  physicalHealth : PhysicalHealth
  mentalHealth : MentalHealth
  recommendations : WearablesRecommendations
  therapeuticInsights : TherapeuticInsights
  alerts : List HealthAlert
  deriving DecidableEq, Repr

/-- The comprehensive flow's stubbed health analysis: a literal record built
with no external model call.  `rand` models the value of
`Math.floor(Math.random() * 15)`, so the wellness score is `75 + rand`. -/
def healthStub (rand : ℕ) : WearablesAnalysisOutput :=
  { overallWellness :=
      { score := 75 + (rand : ℚ)
        trend := "stable"
        primaryConcerns := [] }
    physicalHealth :=
      { cardiovascularHealth := 80
        sleepQuality := 70
        activityLevel := 65
        recoveryStatus := "good" }
    mentalHealth :=
      { stressLevel := 35
        fatigueLevel := 40
        moodIndicators := { calm := 0.7, energetic := 0.6, focused := 0.7 }
        cognitiveLoad := 50 }
    recommendations :=
      { immediate := ["Take a deep breath", "Stay hydrated"]
        shortTerm := ["Maintain regular sleep schedule"]
        longTerm := ["Build consistent exercise routine"] }
    therapeuticInsights :=
      { emotionalState := "calm"
        stressFactors := []
        copingCapacity := 80
        interventionNeeded := false }
    alerts := [] }

/-- Heart-rate block of the wearables input data. -/
structure HeartRateData where
  current : Option ℚ := none
  resting : Option ℚ := none
  variability : Option ℚ := none
  deriving DecidableEq, Repr

/-- Sleep block of the wearables input data. -/
structure SleepData where
  duration : Option ℚ := none
  quality : Option ℚ := none
  deriving DecidableEq, Repr

/-- Activity block of the wearables input data. -/
structure ActivityData where
  steps : Option ℚ := none
  activeMinutes : Option ℚ := none
  deriving DecidableEq, Repr

/-- Stress block of the wearables input data. -/
structure StressData where
  level : Option ℚ := none
  deriving DecidableEq, Repr

/-- Wearables data accepted by the comprehensive flow input. -/
structure WearablesData where
  heartRate : Option HeartRateData := none
  sleep : Option SleepData := none
  activity : Option ActivityData := none
  stress : Option StressData := none
  timestamp : String
  deriving DecidableEq, Repr

/-- Session context of the comprehensive flow input. -/
structure SessionContext where
  sessionId : Option String := none
  sessionPhase : Option String := none
  duration : Option ℚ := none
  deriving DecidableEq, Repr

/-- Input of the comprehensive MITR flow. -/
structure ComprehensiveMitrInput where
  userMessage : String
  conversationHistory : Option (List ConversationTurn) := none
  imageData : Option String := none
  audioFeatures : Option AudioFeatures := none
  wearablesData : Option WearablesData := none
  userProfile : Option UserProfile := none
  sessionContext : Option SessionContext := none
  deriving DecidableEq, Repr

/-- Input of the dedicated safety-assessment prompt. -/
structure SafetyPromptInput where
  userMessage : String
  emotionData : String
  healthData : Option String := none
  conversationHistory : Option String := none
  deriving DecidableEq, Repr

/-- Output of the dedicated safety-assessment prompt. -/
structure SafetyOutput where
  riskLevel : String
  concerns : List String
  actions : List String
  followUp : Bool
  urgentIntervention : Bool
  deriving DecidableEq, Repr

/-- Intervention recommendation lists. -/
structure Interventions where
  immediate : List String
  session : List String
  longTerm : List String
  deriving DecidableEq, Repr

/-- Safety assessment block echoed by the response-generation prompt. -/
structure SafetyEcho where
  riskLevel : String
  concerns : List String
  actions : List String
  followUp : Bool
  deriving DecidableEq, Repr

/-- Input of the therapeutic response-generation prompt. -/
structure ResponsePromptInput where
  userMessage : String
  emotionAnalysis : String
  healthAnalysis : Option String := none
  contextualGuidance : String
  safetyFactors : String
  deriving DecidableEq, Repr

/-- Output of the therapeutic response-generation prompt. -/
structure ResponseOutput where
  response : String
  interventions : Interventions
  safetyAssessment : SafetyEcho
  deriving DecidableEq, Repr

/-- Emotion summary field of the comprehensive output. -/
structure EmotionSummary where
  primary : String
  confidence : ℚ
  distressLevel : ℚ
  recommendations : List String
  deriving DecidableEq, Repr

/-- Health summary field of the comprehensive output. -/
structure HealthSummary where
  wellnessScore : ℚ
  stressLevel : ℚ
  alerts : List HealthAlert
  recommendations : List String
  deriving DecidableEq, Repr

/-- Contextual insights field of the comprehensive output. -/
structure ContextualInsights where
  therapeuticIntent : String
  urgencyLevel : String
  sessionPhase : String
  therapeuticAlliance : ℚ
  deriving DecidableEq, Repr

/-- Avatar control field of the comprehensive output. -/
structure AvatarControl where
  expression : String
  intensity : ℚ
  duration : ℚ
  emotionalState : String
  deriving DecidableEq, Repr

/-- Safety assessment field of the comprehensive output. -/
structure SafetySummary where
  riskLevel : String
  concerns : List String
  actions : List String
  followUp : Bool
  deriving DecidableEq, Repr

/-- Data-quality scores of the comprehensive output metadata. -/
structure DataQuality where
  emotional : ℚ
  health : ℚ
  contextual : ℚ
  deriving DecidableEq, Repr

/-- Metadata field of the comprehensive output. -/
structure OutputMetadata where
  analysisTimestamp : String
  confidenceScore : ℚ
  dataQuality : DataQuality
  deriving DecidableEq, Repr

/-- Output of the comprehensive MITR flow. -/
structure ComprehensiveMitrOutput where
  response : String
  emotionAnalysis : EmotionSummary
  healthAnalysis : Option HealthSummary
  contextualInsights : ContextualInsights
  avatarControl : AvatarControl
  interventions : Interventions
  safetyAssessment : SafetySummary
  metadata : OutputMetadata
  deriving DecidableEq, Repr

/-- Output of the fast therapist prompt. -/
structure FastResponseOutput where
  response : String
  deriving DecidableEq, Repr

/-- Input of the fast MITR flow. -/
structure FastMitrInput where
  userMessage : String
  conversationHistory : Option (List ConversationTurn) := none
  deriving DecidableEq, Repr

/-- Output of the fast MITR flow (same shape as the comprehensive output,
with a mandatory health summary). -/
structure FastMitrOutput where
  response : String
  emotionAnalysis : EmotionSummary
  healthAnalysis : HealthSummary
  contextualInsights : ContextualInsights
  avatarControl : AvatarControl
  interventions : Interventions
  safetyAssessment : SafetySummary
  metadata : OutputMetadata
  deriving DecidableEq, Repr

/-- One external model call per defined prompt.  A call either throws
(`Except.error`) or resolves with a nullable structured output
(`Except.ok`), mirroring the framework's `{ output }` result. -/
structure ModelOracles where
  facialEmotionPrompt : String → Except String (Option FacialEmotions)
  voiceEmotionPrompt : AudioFeatures → Except String (Option VoiceEmotions)
  textEmotionPrompt : String → Option String → Except String (Option TextEmotions)
  multimodalFusionPrompt : Option String → Option String → Option String →
    Except String (Option FusionOutput)
  intentClassificationPrompt : String → Option String → Except String (Option TherapeuticIntent)
  contextAnalysisPrompt : ContextManagementInput → Except String (Option ContextManagementOutput)
  safetyAssessmentPrompt : SafetyPromptInput → Except String (Option SafetyOutput)
  therapeuticResponsePrompt : ResponsePromptInput → Except String (Option ResponseOutput)
  fastTherapistPrompt : String → Option String → Except String (Option FastResponseOutput)

/-- Facial analyzer step of the emotion-analysis flow: runs only when image
data is present and truthy; a thrown error is caught and logged, leaving the
modality absent. -/
def facialStage (o : ModelOracles) (input : EmotionAnalysisInput) : Option FacialEmotions :=
  match input.imageData with
  | some img =>
    if jsTruthyStr img then
      match o.facialEmotionPrompt img with
      | .ok r => r
      | .error _ => none
    else none
  | none => none

/-- Voice analyzer step of the emotion-analysis flow: runs only when audio
features are present; a thrown error is caught, leaving the modality absent. -/
def voiceStage (o : ModelOracles) (input : EmotionAnalysisInput) : Option VoiceEmotions :=
  match input.audioFeatures with
  | some af =>
    match o.voiceEmotionPrompt af with
    | .ok r => r
    | .error _ => none
  | none => none

/-- Text analyzer step of the emotion-analysis flow: runs only when text
content is present and truthy; a thrown error is caught, leaving the modality
absent. -/
def textStage (o : ModelOracles) (input : EmotionAnalysisInput) : Option TextEmotions :=
  match input.textContent with
  | some t =>
    if jsTruthyStr t then
      match o.textEmotionPrompt t input.conversationHistory with
      | .ok r => r
      | .error _ => none
    else none
  | none => none

/-- Serialized per-modality arguments handed to the fusion prompt
(`JSON.stringify(...)` of each present modality result, absent otherwise). -/
def fusionArgs (o : ModelOracles) (input : EmotionAnalysisInput) :
    Option String × Option String × Option String :=
  ((facialStage o input).map serializeFacial,
   (voiceStage o input).map serializeVoice,
   (textStage o input).map serializeText)

/-- Error raised when the fusion prompt resolves with a null output: the flow
dereferences `fusionResult.primary` without a null check, which throws a
type error at runtime. -/
def nullFusionError : String :=
  "TypeError: cannot read properties of null"

/-- The emotion-analysis flow: per-modality analyzers with caught failures,
then an unguarded multimodal fusion call whose result is passed through. -/
def emotionAnalysisFlow (o : ModelOracles) (input : EmotionAnalysisInput) :
    Except String EmotionAnalysisOutput :=
  match o.multimodalFusionPrompt (fusionArgs o input).1 (fusionArgs o input).2.1
      (fusionArgs o input).2.2 with
  | .error e => .error e
  | .ok none => .error nullFusionError
  | .ok (some fusionResult) =>
    .ok { facialEmotions := facialStage o input
          voiceEmotions := voiceStage o input
          textEmotions := textStage o input
          fusedEmotions :=
            { primary := fusionResult.primary
              confidence := fusionResult.confidence
              emotions := fusionResult.emotions
              arousal := fusionResult.arousal
              valence := fusionResult.valence
              distressLevel := fusionResult.distressLevel }
          recommendations := fusionResult.recommendations
          avatarExpression := fusionResult.avatarExpression }

/-- Exported wrapper of the emotion-analysis flow. -/
def analyzeEmotions (o : ModelOracles) (input : EmotionAnalysisInput) :
    Except String EmotionAnalysisOutput :=
  emotionAnalysisFlow o input

/-- Trailing 5-message context window forwarded to the intent classifier. -/
def contextWindow (history : List ConversationTurn) : String :=
  joinNl ((lastN 5 history).map fmtTurn)

/-- The context-management flow: classifies intent, finds relevant knowledge,
runs the full context analysis, throws when either model call fails or
returns no output, then overrides the knowledge matches and the therapeutic
intent with the locally computed values. -/
def contextManagementFlow (o : ModelOracles) (input : ContextManagementInput) :
    Except String ContextManagementOutput :=
  match o.intentClassificationPrompt input.currentMessage
      (some (contextWindow input.conversationHistory)) with
  | .error e => .error e
  | .ok intentResult =>
    let relevantKnowledge := findRelevantKnowledge input.currentMessage input.emotionalContext
    match o.contextAnalysisPrompt input with
    | .error e => .error e
    | .ok contextResult =>
      match contextResult with
      | none => .error "Context analysis failed to produce results"
      | some contextResult =>
        match intentResult with
        | none => .error "Intent classification failed to produce results"
        | some intentResult =>
          .ok { contextResult with
                knowledgeBaseMatches := relevantKnowledge.map (fun item =>
                  { topic := item.topic
                    content := item.content
                    relevanceScore := 0.8
                    category := item.category })
                therapeuticIntent := intentResult }

/-- Exported wrapper of the context-management flow. -/
def manageContext (o : ModelOracles) (input : ContextManagementInput) :
    Except String ContextManagementOutput :=
  contextManagementFlow o input

/-- Emotion-analysis input the comprehensive flow builds from its own input. -/
def mkEmotionInput (input : ComprehensiveMitrInput) : EmotionAnalysisInput :=
  { imageData := input.imageData
    audioFeatures := input.audioFeatures
    textContent := some input.userMessage
    conversationHistory := input.conversationHistory.map (fun h => joinNl (h.map fmtTurn)) }

/-- Step 1 of the comprehensive flow: emotion analysis wrapped in a
try/catch, so a failure leaves the result null. -/
def comprehensiveEmotionStage (o : ModelOracles) (input : ComprehensiveMitrInput) :
    Option EmotionAnalysisOutput :=
  match emotionAnalysisFlow o (mkEmotionInput input) with
  | .ok e => some e
  | .error _ => none

/-- Context-management input the comprehensive flow builds: the non-null
stubbed health analysis always supplies a health context, and the emotional
context is present exactly when emotion analysis succeeded. -/
def mkContextInput (input : ComprehensiveMitrInput) (emotion : Option EmotionAnalysisOutput)
    (health : WearablesAnalysisOutput) : ContextManagementInput :=
  { currentMessage := input.userMessage
    conversationHistory := input.conversationHistory.getD []
    userProfile := input.userProfile
    emotionalContext := emotion.map (fun e =>
      { currentEmotion := some e.fusedEmotions.primary
        emotionIntensity := some e.fusedEmotions.confidence
        emotionTrend := none
        distressLevel := some e.fusedEmotions.distressLevel })
    healthContext := some
      { wellnessScore := some health.overallWellness.score
        stressLevel := some health.mentalHealth.stressLevel
        sleepQuality := some health.physicalHealth.sleepQuality
        activityLevel := some health.physicalHealth.activityLevel } }

/-- Step 3 of the comprehensive flow: context management wrapped in a
try/catch, so a failure leaves the result null. -/
def comprehensiveContextStage (o : ModelOracles) (rand : ℕ)
    (input : ComprehensiveMitrInput) : Option ContextManagementOutput :=
  match contextManagementFlow o
      (mkContextInput input (comprehensiveEmotionStage o input) (healthStub rand)) with
  | .ok c => some c
  | .error _ => none

/-- Safety-assessment prompt input built by the comprehensive flow: the user
message, the serialized fused emotions (or the "No emotion data"
placeholder), no health data, and the trailing 3 formatted history turns. -/
def mkSafetyInput (input : ComprehensiveMitrInput) (emotion : Option EmotionAnalysisOutput) :
    SafetyPromptInput :=
  { userMessage := input.userMessage
    emotionData :=
      match emotion with
      | some e => serializeFusedEmotions e.fusedEmotions
      | none => "No emotion data"
    healthData := none
    conversationHistory := input.conversationHistory.map (fun h =>
      joinNl ((lastN 3 h).map fmtTurn)) }

/-- The safety-assessment input as the comprehensive flow computes it. -/
def comprehensiveSafetyInput (o : ModelOracles) (input : ComprehensiveMitrInput) :
    SafetyPromptInput :=
  mkSafetyInput input (comprehensiveEmotionStage o input)

/-- Pseudo-JSON rendering of a context-management output, modelling
`JSON.stringify(contextualGuidance)`. -/
def serializeContextGuidance (c : ContextManagementOutput) : String :=
  "contextGuidance(intent=" ++ c.therapeuticIntent.primary ++
    "; confidence=" ++ ratStr c.therapeuticIntent.confidence ++
    "; approach=" ++ c.responseStrategy.approach ++
    "; urgency=" ++ c.contextualFactors.urgencyLevel ++
    "; phase=" ++ c.contextualFactors.sessionPhase ++
    "; alliance=" ++ ratStr c.contextualFactors.therapeuticAlliance ++
    "; adaptivePrompt=" ++ c.adaptivePrompt ++ ")"

/-- Pseudo-JSON rendering of a nullable safety output, modelling
`JSON.stringify(safetyResult.output)` (which renders null as "null"). -/
def serializeSafetyFactors (s : Option SafetyOutput) : String :=
  match s with
  | none => "null"
  | some s =>
    "safety(riskLevel=" ++ s.riskLevel ++
      "; concerns=" ++ String.intercalate "," s.concerns ++
      "; actions=" ++ String.intercalate "," s.actions ++ ")"

/-- Response-generation prompt input built by the comprehensive flow:
placeholder text replaces missing emotion or context stages, health analysis
is deliberately skipped, and the safety output is serialized as input text. -/
def mkResponseInput (input : ComprehensiveMitrInput) (emotion : Option EmotionAnalysisOutput)
    (ctx : Option ContextManagementOutput) (sOpt : Option SafetyOutput) : ResponsePromptInput :=
  { userMessage := input.userMessage
    emotionAnalysis :=
      match emotion with
      | some e => serializeEmotionAnalysis e
      | none => "No emotion analysis available"
    healthAnalysis := none
    contextualGuidance :=
      match ctx with
      | some c => serializeContextGuidance c
      | none => "No contextual guidance available"
    safetyFactors := serializeSafetyFactors sOpt }

/-- The response-generation input as the comprehensive flow computes it,
given the nullable safety output of step 4. -/
def comprehensiveResponseInput (o : ModelOracles) (rand : ℕ)
    (input : ComprehensiveMitrInput) (sOpt : Option SafetyOutput) : ResponsePromptInput :=
  mkResponseInput input (comprehensiveEmotionStage o input)
    (comprehensiveContextStage o rand input) sOpt

/-- Step 6 of the comprehensive flow: the merge that compiles the final
output, substituting a hardcoded literal default through JavaScript `||`
(or a ternary) wherever the upstream value is missing or falsy. -/
def mergeOutputs (timestamp : String) (emotion : Option EmotionAnalysisOutput)
    (health : Option WearablesAnalysisOutput) (ctx : Option ContextManagementOutput)
    (sOpt : Option SafetyOutput) (rOpt : Option ResponseOutput) : ComprehensiveMitrOutput :=
  { response := jsOrStr (rOpt.map (fun r => r.response))
      "I apologize, but I encountered an issue generating a response. Please try again."
    emotionAnalysis :=
      { primary := jsOrStr (emotion.map (fun e => e.fusedEmotions.primary)) "neutral"
        confidence := jsOrNum (emotion.map (fun e => e.fusedEmotions.confidence)) 0.5
        distressLevel := jsOrNum (emotion.map (fun e => e.fusedEmotions.distressLevel)) 0.3
        recommendations := jsOrList (emotion.map (fun e => e.recommendations)) }
    healthAnalysis := health.map (fun h =>
      { wellnessScore := h.overallWellness.score
        stressLevel := h.mentalHealth.stressLevel
        alerts := h.alerts
        recommendations := h.recommendations.immediate })
    contextualInsights :=
      { therapeuticIntent := jsOrStr (ctx.map (fun c => c.therapeuticIntent.primary))
          "emotional_support"
        urgencyLevel := jsOrStr (ctx.map (fun c => c.contextualFactors.urgencyLevel)) "low"
        sessionPhase := jsOrStr (ctx.map (fun c => c.contextualFactors.sessionPhase))
          "exploration"
        therapeuticAlliance := jsOrNum (ctx.map (fun c =>
          c.contextualFactors.therapeuticAlliance)) 70 }
    avatarControl :=
      match emotion with
      | some e =>
        { expression := e.avatarExpression.expression
          intensity := e.avatarExpression.intensity
          duration := e.avatarExpression.duration
          emotionalState := "supportive" }
      | none =>
        { expression := "empathetic"
          intensity := 0.7
          duration := 5
          emotionalState := "supportive" }
    interventions :=
      match rOpt with
      | some r => r.interventions
      | none =>
        { immediate := ["Take a deep breath", "Ground yourself in the present moment"]
          session := ["Explore your feelings", "Practice mindfulness"]
          longTerm := ["Develop coping strategies", "Build emotional resilience"] }
    safetyAssessment :=
      { riskLevel := jsOrStr (sOpt.map (fun s => s.riskLevel)) "low"
        concerns := jsOrList (sOpt.map (fun s => s.concerns))
        actions := jsOrList (sOpt.map (fun s => s.actions))
        followUp := jsOrBool (sOpt.map (fun s => s.followUp)) }
    metadata :=
      { analysisTimestamp := timestamp
        confidenceScore :=
          (jsOrNum (emotion.map (fun e => e.fusedEmotions.confidence)) 0.5 +
           jsOrNum (ctx.map (fun c => c.therapeuticIntent.confidence)) 0.5) / 2
        dataQuality :=
          { emotional := if emotion.isSome then 0.8 else 0.3
            health := if health.isSome then 0.9 else 0.0
            contextual := if ctx.isSome then 0.8 else 0.5 } } }

/-- The comprehensive MITR flow: emotion analysis and context management have
caught failures (steps 1 and 3), the health stage is the random-scored stub
(step 2), while the safety assessment (step 4) and the response generation
(step 5) are unguarded, so their errors propagate to the caller; the merge
(step 6) fills every missing field with its literal default. -/
def comprehensiveMitrFlow (o : ModelOracles) (timestamp : String) (rand : ℕ)
    (input : ComprehensiveMitrInput) : Except String ComprehensiveMitrOutput :=
  match o.safetyAssessmentPrompt (comprehensiveSafetyInput o input) with
  | .error e => .error e
  | .ok sOpt =>
    match o.therapeuticResponsePrompt (comprehensiveResponseInput o rand input sOpt) with
    | .error e => .error e
    | .ok rOpt =>
      .ok (mergeOutputs timestamp (comprehensiveEmotionStage o input)
        (some (healthStub rand)) (comprehensiveContextStage o rand input) sOpt rOpt)

/-- Exported wrapper of the comprehensive flow. -/
def processComprehensiveMitrRequest (o : ModelOracles) (timestamp : String) (rand : ℕ)
    (input : ComprehensiveMitrInput) : Except String ComprehensiveMitrOutput :=
  comprehensiveMitrFlow o timestamp rand input

/-- The fast MITR flow: one model call, static values for every analytical
field, including a safety assessment fixed at risk level low. -/
def fastMitrFlow (o : ModelOracles) (timestamp : String) (input : FastMitrInput) :
    Except String FastMitrOutput :=
  match o.fastTherapistPrompt input.userMessage
      (input.conversationHistory.map (fun h => joinNl ((lastN 3 h).map fmtTurn))) with
  | .error e => .error e
  | .ok rOpt =>
    .ok { response := jsOrStr (rOpt.map (fun r => r.response))
            "I understand. How can I help you today?"
          emotionAnalysis :=
            { primary := "neutral"
              confidence := 0.8
              distressLevel := 0.3
              recommendations := ["Focus on the present", "Express your feelings"] }
          healthAnalysis :=
            { wellnessScore := 75
              stressLevel := 35
              alerts := []
              recommendations := ["Take regular breaks", "Stay hydrated"] }
          contextualInsights :=
            { therapeuticIntent := "supportive_listening"
              urgencyLevel := "low"
              sessionPhase := "exploration"
              therapeuticAlliance := 75 }
          avatarControl :=
            { expression := "empathetic"
              intensity := 0.7
              duration := 3
              emotionalState := "attentive" }
          interventions :=
            { immediate := ["Take a deep breath", "Ground yourself in the present moment"]
              session := ["Express your feelings", "Practice mindfulness"]
              longTerm := ["Develop coping strategies", "Build emotional resilience"] }
          safetyAssessment :=
            { riskLevel := "low"
              concerns := []
              actions := []
              followUp := false }
          metadata :=
            { analysisTimestamp := timestamp
              confidenceScore := 0.8
              dataQuality := { emotional := 0.7, health := 0.7, contextual := 0.7 } } }

/-- Exported wrapper of the fast flow. -/
def processFastMitrRequest (o : ModelOracles) (timestamp : String) (input : FastMitrInput) :
    Except String FastMitrOutput :=
  fastMitrFlow o timestamp input

/-- One rendered chat message of the enhanced chat interface. -/
structure EnhancedMessage where
  id : String
  speaker : String
  text : String
  timestamp : String
  emotions : Option (List (String × ℚ)) := none
  intent : Option String := none
  deriving DecidableEq, Repr

/-- One toast notification raised by the chat interface. -/
structure ChatToast where
  variant : String
  title : String
  description : String
  deriving DecidableEq, Repr

/-- Success branch of the chat interface's send handler after the fast flow
resolves: appends the AI message to the conversation and raises a
destructive toast exactly when the risk level is critical ("Only show
critical alerts").  `newId` and `newTimestamp` model the generated message
id and current time. -/
def handleFastOutput (history : List EnhancedMessage) (newId newTimestamp : String)
    (aiOutput : FastMitrOutput) : List EnhancedMessage × List ChatToast :=
  let aiMessage : EnhancedMessage :=
    { id := newId
      speaker := "ai"
      text := aiOutput.response
      timestamp := newTimestamp
      emotions := some [(aiOutput.emotionAnalysis.primary, aiOutput.emotionAnalysis.confidence)]
      intent := some aiOutput.contextualInsights.therapeuticIntent }
  let toasts : List ChatToast :=
    if aiOutput.safetyAssessment.riskLevel == "critical" then
      [{ variant := "destructive"
         title := aiOutput.safetyAssessment.riskLevel.toUpper ++ " Risk Detected"
         description := String.intercalate ", " aiOutput.safetyAssessment.concerns }]
    else []
  (history ++ [aiMessage], toasts)

/-- Oracle bundle in which every model call resolves with a null output. -/
def trivialOracles : ModelOracles :=
  { facialEmotionPrompt := fun _ => .ok none
    voiceEmotionPrompt := fun _ => .ok none
    textEmotionPrompt := fun _ _ => .ok none
    multimodalFusionPrompt := fun _ _ _ => .ok none
    intentClassificationPrompt := fun _ _ => .ok none
    contextAnalysisPrompt := fun _ => .ok none
    safetyAssessmentPrompt := fun _ => .ok none
    therapeuticResponsePrompt := fun _ => .ok none
    fastTherapistPrompt := fun _ _ => .ok none }

/-- Oracle bundle whose safety-assessment call throws. -/
def failingSafetyOracles : ModelOracles :=
  { trivialOracles with safetyAssessmentPrompt := fun _ => .error "provider unavailable" }

/-- Oracle bundle whose response-generation call throws. -/
def failingResponseOracles : ModelOracles :=
  { trivialOracles with therapeuticResponsePrompt := fun _ => .error "generation failed" }

/-- Oracle bundle whose multimodal fusion call throws. -/
def failingFusionOracles : ModelOracles :=
  { trivialOracles with multimodalFusionPrompt := fun _ _ _ => .error "provider timeout" }

/-- Concrete fusion output used to exercise the fusion passthrough. -/
def sampleFusion : FusionOutput :=
  { primary := "calm"
    confidence := 0.6
    emotions := [("calm", 0.6), ("neutral", 0.3)]
    arousal := 0.3
    valence := 0.6
    distressLevel := 0.1
    recommendations := ["Keep a steady routine"]
    avatarExpression := { expression := "calm", intensity := 0.5, duration := 4 } }

/-- Oracle bundle whose fusion call resolves with `sampleFusion`. -/
def fusionSuccessOracles : ModelOracles :=
  { trivialOracles with multimodalFusionPrompt := fun _ _ _ => .ok (some sampleFusion) }

/-- Oracle bundle whose intent-classification call throws. -/
def failingIntentOracles : ModelOracles :=
  { trivialOracles with intentClassificationPrompt := fun _ _ => .error "intent model down" }

/-- Concrete intent-classification output used to exercise the override. -/
def sampleIntent : TherapeuticIntent :=
  { primary := "anxiety_management", secondary := ["emotional_support"], confidence := 0.9 }

/-- Concrete context-analysis output used to exercise the override; its own
proposed intent differs from the classifier's. -/
def sampleContextAnalysis : ContextManagementOutput :=
  { relevantContext := [{ content := "prior session", relevanceScore := 0.5, source := "history" }]
    therapeuticIntent := { primary := "small_talk", secondary := [], confidence := 0.4 }
    responseStrategy := { approach := "cbt", tone := "warm", techniques := ["grounding"],
                          avoidances := ["judgment"] }
    contextualFactors := { emotionalState := "anxious", urgencyLevel := "medium",
                           sessionPhase := "exploration", therapeuticAlliance := 60 }
    knowledgeBaseMatches := [{ topic := "stale", content := "stale", relevanceScore := 0.1,
                               category := "stale" }]
    adaptivePrompt := "adapted" }

/-- Oracle bundle whose intent and context-analysis calls both succeed. -/
def contextSuccessOracles : ModelOracles :=
  { trivialOracles with
    intentClassificationPrompt := fun _ _ => .ok (some sampleIntent)
    contextAnalysisPrompt := fun _ => .ok (some sampleContextAnalysis) }

/-- Concrete context-management input used by witnesses. -/
def sampleContextInput : ContextManagementInput :=
  { currentMessage := "hi", conversationHistory := [] }

/-- Result the context-management flow produces from `contextSuccessOracles`
on `sampleContextInput`: the analysis output with the knowledge matches and
the therapeutic intent overridden. -/
def sampleContextResult : ContextManagementOutput :=
  { sampleContextAnalysis with
    knowledgeBaseMatches := []
    therapeuticIntent := sampleIntent }

/-- Concrete comprehensive-flow input used by witnesses. -/
def sampleInput : ComprehensiveMitrInput :=
  { userMessage := "hello" }

/-- Concrete fast-flow output whose risk level is critical. -/
def criticalFastOutput : FastMitrOutput :=
  { response := "Please stay with me."
    emotionAnalysis := { primary := "fearful", confidence := 0.9, distressLevel := 0.9,
                         recommendations := [] }
    healthAnalysis := { wellnessScore := 40, stressLevel := 80, alerts := [],
                        recommendations := [] }
    contextualInsights := { therapeuticIntent := "crisis_intervention", urgencyLevel := "critical",
                            sessionPhase := "intervention", therapeuticAlliance := 50 }
    avatarControl := { expression := "concerned", intensity := 0.9, duration := 5,
                       emotionalState := "supportive" }
    interventions := { immediate := ["Call a helpline"], session := [], longTerm := [] }
    safetyAssessment := { riskLevel := "critical", concerns := ["imminent danger"],
                          actions := ["emergency intervention"], followUp := true }
    metadata := { analysisTimestamp := "t", confidenceScore := 0.9,
                  dataQuality := { emotional := 0.9, health := 0.5, contextual := 0.9 } } }

/-- Concrete fast-flow output whose risk level is low. -/
def lowFastOutput : FastMitrOutput :=
  { criticalFastOutput with
    safetyAssessment := { riskLevel := "low", concerns := [], actions := [], followUp := false } }

/-- The static fast-flow output the flow returns under `trivialOracles` at
timestamp "t" (the model call resolved with a null output, so the response
field falls back to its default). -/
def fastStaticOutput : FastMitrOutput :=
  { response := "I understand. How can I help you today?"
    emotionAnalysis := { primary := "neutral", confidence := 0.8, distressLevel := 0.3,
                         recommendations := ["Focus on the present", "Express your feelings"] }
    healthAnalysis := { wellnessScore := 75, stressLevel := 35, alerts := [],
                        recommendations := ["Take regular breaks", "Stay hydrated"] }
    contextualInsights := { therapeuticIntent := "supportive_listening", urgencyLevel := "low",
                            sessionPhase := "exploration", therapeuticAlliance := 75 }
    avatarControl := { expression := "empathetic", intensity := 0.7, duration := 3,
                       emotionalState := "attentive" }
    interventions := { immediate := ["Take a deep breath", "Ground yourself in the present moment"]
                       session := ["Express your feelings", "Practice mindfulness"]
                       longTerm := ["Develop coping strategies", "Build emotional resilience"] }
    safetyAssessment := { riskLevel := "low", concerns := [], actions := [], followUp := false }
    metadata := { analysisTimestamp := "t", confidenceScore := 0.8,
                  dataQuality := { emotional := 0.7, health := 0.7, contextual := 0.7 } } }

/-- Concrete emotion-analysis output whose fused confidence and distress are
both the falsy number zero. -/
def zeroConfidenceEmotion : EmotionAnalysisOutput :=
  { facialEmotions := none
    voiceEmotions := none
    textEmotions := none
    fusedEmotions := { primary := "neutral", confidence := 0, emotions := [("neutral", 1)],
                       arousal := 0.2, valence := 0.5, distressLevel := 0 }
    recommendations := ["Breathe"]
    avatarExpression := { expression := "calm", intensity := 0.4, duration := 3 } }

/-- Concrete safety output with a false follow-up flag. -/
def sampleSafetyOutput : SafetyOutput :=
  { riskLevel := "medium", concerns := ["elevated distress"], actions := ["monitor"],
    followUp := true, urgentIntervention := false }

/-- Concrete response output whose response text is the falsy empty string. -/
def emptyResponseOutput : ResponseOutput :=
  { response := ""
    interventions := { immediate := [], session := [], longTerm := [] }
    safetyAssessment := { riskLevel := "low", concerns := [], actions := [], followUp := false } }

/-- Membership in a first-occurrence deduplication implies membership in the
original list, for any accumulator. -/
theorem mem_of_mem_dedupFirstAux [DecidableEq α] {x : α} (l : List α) :
    ∀ seen : List α, x ∈ dedupFirstAux seen l → x ∈ l := by
  induction l with
  | nil => intro seen h; simp [dedupFirstAux] at h
  | cons a l ih =>
    intro seen h
    by_cases ha : a ∈ seen
    · simp only [dedupFirstAux, if_pos ha] at h
      exact List.mem_cons_of_mem a (ih seen h)
    · simp only [dedupFirstAux, if_neg ha] at h
      rcases List.mem_cons.mp h with h | h
      · exact h ▸ List.mem_cons_self a l
      · exact List.mem_cons_of_mem a (ih (a :: seen) h)

/-- First-occurrence deduplication yields a duplicate-free list whose
elements avoid the accumulator. -/
theorem nodup_dedupFirstAux [DecidableEq α] (l : List α) :
    ∀ seen : List α,
      (dedupFirstAux seen l).Nodup ∧ ∀ x ∈ dedupFirstAux seen l, x ∉ seen := by
  induction l with
  | nil => intro seen; exact ⟨List.nodup_nil, by simp [dedupFirstAux]⟩
  | cons a l ih =>
    intro seen
    by_cases ha : a ∈ seen
    · simpa only [dedupFirstAux, if_pos ha] using ih seen
    · simp only [dedupFirstAux, if_neg ha]
      obtain ⟨hnd, hmem⟩ := ih (a :: seen)
      refine ⟨List.nodup_cons.mpr ⟨fun hx => hmem a hx (List.mem_cons_self a seen), hnd⟩, ?_⟩
      intro x hx
      rcases List.mem_cons.mp hx with rfl | hx
      · exact ha
      · exact fun hxs => hmem x hx (List.mem_cons_of_mem a hxs)

/-- Membership in a first-occurrence deduplication implies membership in the
original list. -/
theorem mem_of_mem_dedupFirst [DecidableEq α] {x : α} {l : List α}
    (h : x ∈ dedupFirst l) : x ∈ l :=
  mem_of_mem_dedupFirstAux l [] h

/-- First-occurrence deduplication yields a duplicate-free list. -/
theorem nodup_dedupFirst [DecidableEq α] (l : List α) : (dedupFirst l).Nodup :=
  (nodup_dedupFirstAux l []).1

/-- Every entry returned by the emotion filter is a knowledge-base entry
whose keywords intersect the mapping of the supplied truthy emotion label. -/
theorem mem_emotionMatchesFor {e : KnowledgeEntry} {ec : Option EmotionalContext}
    (h : e ∈ emotionMatchesFor ec) :
    e ∈ therapeuticKnowledgeBase ∧
    ∃ emo, ec.bind (fun c => c.currentEmotion) = some emo ∧ jsTruthyStr emo = true ∧
      (emotionKeywords emo).any (fun key => e.keywords.contains key) = true := by
  unfold emotionMatchesFor at h
  split at h
  next emo heq =>
    split at h
    next htr =>
      obtain ⟨hkb, hpred⟩ := List.mem_filter.mp h
      exact ⟨hkb, emo, heq, htr, hpred⟩
    next htr => simp at h
  next heq => simp at h

/-- C1: for every response consumed by the enhanced chat interface, the
destructive alert toast is raised exactly when the safety assessment's risk
level equals "critical", and for any other risk level no toast is raised;
moreover every successful fast-flow response carries the static risk level
"low". -/
theorem chat_alert_iff_critical (history : List EnhancedMessage)
    (newId newTimestamp : String) (aiOutput : FastMitrOutput) (o : ModelOracles)
    (ts : String) (finput : FastMitrInput) (fout : FastMitrOutput) :
    (aiOutput.safetyAssessment.riskLevel = "critical" →
      (handleFastOutput history newId newTimestamp aiOutput).2 =
        [{ variant := "destructive"
           title := aiOutput.safetyAssessment.riskLevel.toUpper ++ " Risk Detected"
           description := String.intercalate ", " aiOutput.safetyAssessment.concerns }]) ∧
    (aiOutput.safetyAssessment.riskLevel ≠ "critical" →
      (handleFastOutput history newId newTimestamp aiOutput).2 = []) ∧
    (fastMitrFlow o ts finput = .ok fout → fout.safetyAssessment.riskLevel = "low") := by
  refine ⟨?_, ?_, ?_⟩
  · intro h
    simp [handleFastOutput, h]
  · intro h
    simp [handleFastOutput, h]
  · intro h
    unfold fastMitrFlow at h
    cases hfo : o.fastTherapistPrompt finput.userMessage
        (finput.conversationHistory.map (fun h => joinNl ((lastN 3 h).map fmtTurn))) with
    | error e => rw [hfo] at h; cases h
    | ok rOpt => rw [hfo] at h; cases h; rfl

/-- C1 witness: the alert fires on a concrete critical output, stays silent
on a concrete low-risk output, and a concrete fast-flow run returns the
static low risk level. -/
theorem chat_alert_iff_critical_witness :
    (handleFastOutput [] "id1" "t1" criticalFastOutput).2 =
      [{ variant := "destructive"
         title := criticalFastOutput.safetyAssessment.riskLevel.toUpper ++ " Risk Detected"
         description := String.intercalate ", " criticalFastOutput.safetyAssessment.concerns }] ∧
    (handleFastOutput [] "id1" "t1" lowFastOutput).2 = [] ∧
    fastStaticOutput.safetyAssessment.riskLevel = "low" :=
  ⟨(chat_alert_iff_critical [] "id1" "t1" criticalFastOutput trivialOracles "t"
      { userMessage := "hi" } fastStaticOutput).1 rfl,
   (chat_alert_iff_critical [] "id1" "t1" lowFastOutput trivialOracles "t"
      { userMessage := "hi" } fastStaticOutput).2.1 (by decide),
   (chat_alert_iff_critical [] "id1" "t1" lowFastOutput trivialOracles "t"
      { userMessage := "hi" } fastStaticOutput).2.2 rfl⟩

/-- C2: the safety-assessment prompt input built by the comprehensive flow is
unchanged when only the wearables data of the input changes, contains no
health data, and consists of the user message, the serialized fused emotions
(or the "No emotion data" placeholder) and only the trailing 3 formatted
conversation turns. -/
theorem safety_input_independent_of_wearables (o : ModelOracles)
    (input : ComprehensiveMitrInput) (w : Option WearablesData) :
    comprehensiveSafetyInput o { input with wearablesData := w } =
      comprehensiveSafetyInput o input ∧
    (comprehensiveSafetyInput o input).healthData = none ∧
    (comprehensiveSafetyInput o input).userMessage = input.userMessage ∧
    (comprehensiveSafetyInput o input).conversationHistory =
      input.conversationHistory.map (fun h => joinNl ((lastN 3 h).map fmtTurn)) ∧
    (comprehensiveSafetyInput o input).emotionData =
      (match comprehensiveEmotionStage o input with
       | some e => serializeFusedEmotions e.fusedEmotions
       | none => "No emotion data") :=
  ⟨rfl, rfl, rfl, rfl, rfl⟩

/-- C3: an error thrown by the safety-assessment call, or by the
response-generation call after a successful safety call, propagates out of
the comprehensive flow unchanged — no fallback value is substituted for
those two stages. -/
theorem safety_response_errors_propagate (o : ModelOracles) (timestamp : String)
    (rand : ℕ) (input : ComprehensiveMitrInput) :
    (∀ e, o.safetyAssessmentPrompt (comprehensiveSafetyInput o input) = .error e →
      comprehensiveMitrFlow o timestamp rand input = .error e) ∧
    (∀ sOpt e, o.safetyAssessmentPrompt (comprehensiveSafetyInput o input) = .ok sOpt →
      o.therapeuticResponsePrompt (comprehensiveResponseInput o rand input sOpt) = .error e →
      comprehensiveMitrFlow o timestamp rand input = .error e) := by
  constructor
  · intro e h
    unfold comprehensiveMitrFlow
    rw [h]
  · intro sOpt e hs hr
    simp only [comprehensiveMitrFlow, hs, hr]

/-- C3 witness: a concrete failing safety call and a concrete failing
response call each surface as theflow's overall error. -/
theorem safety_response_errors_propagate_witness :
    comprehensiveMitrFlow failingSafetyOracles "t" 0 sampleInput =
      .error "provider unavailable" ∧
    comprehensiveMitrFlow failingResponseOracles "t" 0 sampleInput =
      .error "generation failed" :=
  ⟨(safety_response_errors_propagate failingSafetyOracles "t" 0 sampleInput).1
      "provider unavailable" rfl,
   (safety_response_errors_propagate failingResponseOracles "t" 0 sampleInput).2
      none "generation failed" rfl rfl⟩

/-- C4 counterexample: on an input with zero modality signals, a thrown
fusion call surfaces directly as an error of the emotion-analysis flow — the
caller does not receive a neutral-default fused record. -/
theorem fusion_error_surfaces_counterexample :
    emotionAnalysisFlow failingFusionOracles {} = .error "provider timeout" := rfl

/-- C4 (amended): the emotion-analysis flow always issues the fusion call
(on the serialized present modalities) and passes its record through
unchanged; a thrown fusion call propagates as the flow's error, and a null
fusion output raises the null-dereference error. -/
theorem fusion_result_passthrough (o : ModelOracles) (input : EmotionAnalysisInput) :
    (∀ e, o.multimodalFusionPrompt (fusionArgs o input).1 (fusionArgs o input).2.1
        (fusionArgs o input).2.2 = .error e →
      emotionAnalysisFlow o input = .error e) ∧
    (o.multimodalFusionPrompt (fusionArgs o input).1 (fusionArgs o input).2.1
        (fusionArgs o input).2.2 = .ok none →
      emotionAnalysisFlow o input = .error nullFusionError) ∧
    (∀ f, o.multimodalFusionPrompt (fusionArgs o input).1 (fusionArgs o input).2.1
        (fusionArgs o input).2.2 = .ok (some f) →
      ∃ r, emotionAnalysisFlow o input = .ok r ∧
        r.fusedEmotions = { primary := f.primary, confidence := f.confidence,
                            emotions := f.emotions, arousal := f.arousal,
                            valence := f.valence, distressLevel := f.distressLevel } ∧
        r.recommendations = f.recommendations ∧
        r.avatarExpression = f.avatarExpression) := by
  refine ⟨?_, ?_, ?_⟩
  · intro e h
    unfold emotionAnalysisFlow
    rw [h]
  · intro h
    unfold emotionAnalysisFlow
    rw [h]
  · intro f h
    unfold emotionAnalysisFlow
    rw [h]
    exact ⟨_, rfl, rfl, rfl, rfl⟩

/-- C4 witness: a concrete successful fusion call is passed through
unchanged by the flow. -/
theorem fusion_result_passthrough_witness :
    ∃ r, emotionAnalysisFlow fusionSuccessOracles {} = .ok r ∧
      r.fusedEmotions = { primary := sampleFusion.primary,
                          confidence := sampleFusion.confidence,
                          emotions := sampleFusion.emotions,
                          arousal := sampleFusion.arousal,
                          valence := sampleFusion.valence,
                          distressLevel := sampleFusion.distressLevel } ∧
      r.recommendations = sampleFusion.recommendations ∧
      r.avatarExpression = sampleFusion.avatarExpression :=
  (fusion_result_passthrough fusionSuccessOracles {}).2.2 sampleFusion rfl

/-- C5: when the emotion-analysis stage fails and the safety and response
calls resolve, the comprehensive flow still returns a merged output whose
emotion-analysis summary is the literal default (primary neutral, confidence
0.5, distress 0.3, no recommendations) and which contains a health summary;
a missing safety output yields the default safety block with risk level low,
and a failed context stage yields the default contextual insights with
therapeutic alliance 70. -/
theorem emotion_failure_merged_defaults (o : ModelOracles) (timestamp : String)
    (rand : ℕ) (input : ComprehensiveMitrInput) (err : String)
    (sOpt : Option SafetyOutput) (rOpt : Option ResponseOutput)
    (he : emotionAnalysisFlow o (mkEmotionInput input) = .error err)
    (hs : o.safetyAssessmentPrompt (comprehensiveSafetyInput o input) = .ok sOpt)
    (hr : o.therapeuticResponsePrompt (comprehensiveResponseInput o rand input sOpt) = .ok rOpt) :
    ∃ res, comprehensiveMitrFlow o timestamp rand input = .ok res ∧
      res.emotionAnalysis =
        { primary := "neutral", confidence := 0.5, distressLevel := 0.3,
          recommendations := [] } ∧
      res.healthAnalysis.isSome = true ∧
      (sOpt = none → res.safetyAssessment =
        { riskLevel := "low", concerns := [], actions := [], followUp := false }) ∧
      (comprehensiveContextStage o rand input = none →
        res.contextualInsights =
          { therapeuticIntent := "emotional_support", urgencyLevel := "low",
            sessionPhase := "exploration", therapeuticAlliance := 70 }) := by
  have hemo : comprehensiveEmotionStage o input = none := by
    unfold comprehensiveEmotionStage
    rw [he]
  have hflow : comprehensiveMitrFlow o timestamp rand input =
      .ok (mergeOutputs timestamp (comprehensiveEmotionStage o input)
        (some (healthStub rand)) (comprehensiveContextStage o rand input) sOpt rOpt) := by
    simp only [comprehensiveMitrFlow, hs, hr]
  refine ⟨_, hflow, ?_, ?_, ?_, ?_⟩
  · rw [hemo]
    rfl
  · rfl
  · intro h
    subst h
    rfl
  · intro h
    rw [hemo, h]
    rfl

/-- C5 witness: under oracles whose fusion output is null (so emotion
analysis fails), whose context analysis output is null (so the context stage
fails), and whose safety and response outputs are null, a concrete
comprehensive run returns the full default merged output. -/
theorem emotion_failure_merged_defaults_witness :
    ∃ res, comprehensiveMitrFlow trivialOracles "t" 0 sampleInput = .ok res ∧
      res.emotionAnalysis =
        { primary := "neutral", confidence := 0.5, distressLevel := 0.3,
          recommendations := [] } ∧
      res.healthAnalysis.isSome = true ∧
      res.safetyAssessment =
        { riskLevel := "low", concerns := [], actions := [], followUp := false } ∧
      res.contextualInsights =
        { therapeuticIntent := "emotional_support", urgencyLevel := "low",
          sessionPhase := "exploration", therapeuticAlliance := 70 } := by
  obtain ⟨res, h1, h2, h3, h4, h5⟩ :=
    emotion_failure_merged_defaults trivialOracles "t" 0 sampleInput
      nullFusionError none none rfl rfl rfl
  exact ⟨res, h1, h2, h3, h4 rfl, h5 rfl⟩

/-- C6: the context-management flow propagates an error whenever the intent
classification call throws, the context-analysis call throws, the
context-analysis output is null, or the intent output is null — it
substitutes no fallback of its own — while the comprehensive orchestrator
catches that error, proceeds with a null contextual guidance, and hands the
response generator the "No contextual guidance available" placeholder. -/
theorem manageContext_error_policy (o : ModelOracles) (input : ContextManagementInput)
    (cinput : ComprehensiveMitrInput) (rand : ℕ) :
    (∀ e, o.intentClassificationPrompt input.currentMessage
        (some (contextWindow input.conversationHistory)) = .error e →
      contextManagementFlow o input = .error e) ∧
    (∀ iOpt e, o.intentClassificationPrompt input.currentMessage
        (some (contextWindow input.conversationHistory)) = .ok iOpt →
      o.contextAnalysisPrompt input = .error e →
      contextManagementFlow o input = .error e) ∧
    (∀ iOpt, o.intentClassificationPrompt input.currentMessage
        (some (contextWindow input.conversationHistory)) = .ok iOpt →
      o.contextAnalysisPrompt input = .ok none →
      contextManagementFlow o input = .error "Context analysis failed to produce results") ∧
    (∀ c, o.intentClassificationPrompt input.currentMessage
        (some (contextWindow input.conversationHistory)) = .ok none →
      o.contextAnalysisPrompt input = .ok (some c) →
      contextManagementFlow o input = .error "Intent classification failed to produce results") ∧
    (∀ e, contextManagementFlow o
        (mkContextInput cinput (comprehensiveEmotionStage o cinput) (healthStub rand)) =
          .error e →
      comprehensiveContextStage o rand cinput = none) ∧
    (∀ sOpt, comprehensiveContextStage o rand cinput = none →
      (comprehensiveResponseInput o rand cinput sOpt).contextualGuidance =
        "No contextual guidance available") := by
  refine ⟨?_, ?_, ?_, ?_, ?_, ?_⟩
  · intro e h
    unfold contextManagementFlow
    rw [h]
  · intro iOpt e hi hc
    simp only [contextManagementFlow, hi, hc]
  · intro iOpt hi hc
    simp only [contextManagementFlow, hi, hc]
  · intro c hi hc
    simp only [contextManagementFlow, hi, hc]
  · intro e h
    unfold comprehensiveContextStage
    rw [h]
  · intro sOpt h
    unfold comprehensiveResponseInput mkResponseInput
    rw [h]

/-- C6 witness: under oracles whose intent classification throws, a concrete
context-management call fails with that error, the orchestrator's context
stage is null, and the response generator receives the placeholder text. -/
theorem manageContext_error_policy_witness :
    contextManagementFlow failingIntentOracles sampleContextInput =
      .error "intent model down" ∧
    comprehensiveContextStage failingIntentOracles 0 sampleInput = none ∧
    (comprehensiveResponseInput failingIntentOracles 0 sampleInput none).contextualGuidance =
      "No contextual guidance available" := by
  have h1 := (manageContext_error_policy failingIntentOracles sampleContextInput
      sampleInput 0).1 "intent model down" rfl
  have h2 := (manageContext_error_policy failingIntentOracles
      (mkContextInput sampleInput (comprehensiveEmotionStage failingIntentOracles sampleInput)
        (healthStub 0)) sampleInput 0).2.2.2.2.1 "intent model down" rfl
  have h3 := (manageContext_error_policy failingIntentOracles sampleContextInput
      sampleInput 0).2.2.2.2.2 none h2
  exact ⟨h1, h2, h3⟩

/-- C7: every successful context-management result equals the
context-analysis output with exactly two fields replaced — the therapeutic
intent by the intent classifier's output and the knowledge-base matches by
the knowledge matcher's mapped result — all other fields passing through
unchanged. -/
theorem manageContext_overrides (o : ModelOracles) (input : ContextManagementInput)
    (result : ContextManagementOutput)
    (h : contextManagementFlow o input = .ok result) :
    ∃ intentResult contextResult,
      o.intentClassificationPrompt input.currentMessage
        (some (contextWindow input.conversationHistory)) = .ok (some intentResult) ∧
      o.contextAnalysisPrompt input = .ok (some contextResult) ∧
      result.therapeuticIntent = intentResult ∧
      result.knowledgeBaseMatches =
        (findRelevantKnowledge input.currentMessage input.emotionalContext).map (fun item =>
          { topic := item.topic, content := item.content, relevanceScore := 0.8,
            category := item.category }) ∧
      result.relevantContext = contextResult.relevantContext ∧
      result.responseStrategy = contextResult.responseStrategy ∧
      result.contextualFactors = contextResult.contextualFactors ∧
      result.adaptivePrompt = contextResult.adaptivePrompt := by
  unfold contextManagementFlow at h
  cases hi : o.intentClassificationPrompt input.currentMessage
      (some (contextWindow input.conversationHistory)) with
  | error e => rw [hi] at h; cases h
  | ok iOpt =>
    rw [hi] at h
    cases hc : o.contextAnalysisPrompt input with
    | error e => rw [hc] at h; cases h
    | ok cOpt =>
      simp only [hc] at h
      cases cOpt with
      | none => cases h
      | some c =>
        cases iOpt with
        | none => cases h
        | some i =>
          cases h
          exact ⟨i, c, rfl, rfl, rfl, rfl, rfl, rfl, rfl, rfl⟩

/-- C7 witness: a concrete successful run whose result carries the
classifier's intent and the matcher's (empty) matches while passing the
other analysis fields through. -/
theorem manageContext_overrides_witness :
    ∃ intentResult contextResult,
      contextSuccessOracles.intentClassificationPrompt sampleContextInput.currentMessage
        (some (contextWindow sampleContextInput.conversationHistory)) =
          .ok (some intentResult) ∧
      contextSuccessOracles.contextAnalysisPrompt sampleContextInput =
        .ok (some contextResult) ∧
      sampleContextResult.therapeuticIntent = intentResult ∧
      sampleContextResult.knowledgeBaseMatches =
        (findRelevantKnowledge sampleContextInput.currentMessage
          sampleContextInput.emotionalContext).map (fun item =>
            { topic := item.topic, content := item.content, relevanceScore := 0.8,
              category := item.category }) ∧
      sampleContextResult.relevantContext = contextResult.relevantContext ∧
      sampleContextResult.responseStrategy = contextResult.responseStrategy ∧
      sampleContextResult.contextualFactors = contextResult.contextualFactors ∧
      sampleContextResult.adaptivePrompt = contextResult.adaptivePrompt :=
  manageContext_overrides contextSuccessOracles sampleContextInput sampleContextResult
    (by rfl)

/-- C8: the knowledge matcher returns at most 5 entries with no entry
appearing twice, and every returned entry is a knowledge-base entry selected
either by case-insensitive substring match of one of its keywords against
the message or, when a truthy emotion label is supplied, by intersection of
its keywords with the fixed emotion keyword mapping. -/
theorem findRelevantKnowledge_top5_nodup (message : String)
    (ec : Option EmotionalContext) :
    (findRelevantKnowledge message ec).length ≤ 5 ∧
    (findRelevantKnowledge message ec).Nodup ∧
    ∀ e ∈ findRelevantKnowledge message ec,
      e ∈ therapeuticKnowledgeBase ∧
      (e.keywords.any (fun keyword => strIncludes (strToLower message) keyword) = true ∨
       ∃ emo, ec.bind (fun c => c.currentEmotion) = some emo ∧ jsTruthyStr emo = true ∧
         (emotionKeywords emo).any (fun key => e.keywords.contains key) = true) := by
  refine ⟨?_, ?_, ?_⟩
  · unfold findRelevantKnowledge
    rw [List.length_take]
    exact min_le_left _ _
  · exact (nodup_dedupFirst _).sublist (List.take_sublist _ _)
  · intro e he
    unfold findRelevantKnowledge at he
    have hmem := mem_of_mem_dedupFirst ((List.take_sublist _ _).subset he)
    rcases List.mem_append.mp hmem with h | h
    · obtain ⟨hkb, hpred⟩ := List.mem_filter.mp h
      exact ⟨hkb, Or.inl hpred⟩
    · obtain ⟨hkb, hex⟩ := mem_emotionMatchesFor h
      exact ⟨hkb, Or.inr hex⟩

/-- C8 witness: on a concrete anxious message with no emotion context the
matcher returns the anxiety entry of the knowledge base, selected by
keyword substring match. -/
theorem findRelevantKnowledge_top5_nodup_witness :
    kbAnxiety ∈ therapeuticKnowledgeBase ∧
    (kbAnxiety.keywords.any (fun keyword =>
        strIncludes (strToLower "I feel so much Anxiety and worry") keyword) = true ∨
     ∃ emo, (none : Option EmotionalContext).bind (fun c => c.currentEmotion) = some emo ∧
       jsTruthyStr emo = true ∧
       (emotionKeywords emo).any (fun key => kbAnxiety.keywords.contains key) = true) :=
  (findRelevantKnowledge_top5_nodup "I feel so much Anxiety and worry" none).2.2
    kbAnxiety (by decide)

/-- C9 counterexample: two comprehensive runs on the same input and the same
oracles but different random draws return different health-analysis
summaries — the wellness score is 75 plus the random draw, hence not a fixed
record across runs. -/
theorem health_stub_random_counterexample :
    ((comprehensiveMitrFlow trivialOracles "t" 0 sampleInput).toOption.bind
      (fun r => r.healthAnalysis.map (fun h => h.wellnessScore))) =
        some ((healthStub 0).overallWellness.score) ∧
    ((comprehensiveMitrFlow trivialOracles "t" 1 sampleInput).toOption.bind
      (fun r => r.healthAnalysis.map (fun h => h.wellnessScore))) =
        some ((healthStub 1).overallWellness.score) ∧
    (healthStub 0).overallWellness.score ≠ (healthStub 1).overallWellness.score :=
  ⟨rfl, rfl, by norm_num [healthStub]⟩

/-- C9 (amended): the stubbed health stage is a pure literal record taking
no model oracle — every field is a fixed literal except the overall-wellness
score, which is 75 plus the random draw and therefore ranges over [75, 89]
and may differ between two runs on the same input. -/
theorem health_stub_static_except_score (r₁ r₂ : ℕ) (h₁ : r₁ < 15) (h₂ : r₂ < 15) :
    (healthStub r₁).physicalHealth = (healthStub r₂).physicalHealth ∧
    (healthStub r₁).mentalHealth = (healthStub r₂).mentalHealth ∧
    (healthStub r₁).recommendations = (healthStub r₂).recommendations ∧
    (healthStub r₁).therapeuticInsights = (healthStub r₂).therapeuticInsights ∧
    (healthStub r₁).alerts = (healthStub r₂).alerts ∧
    (healthStub r₁).overallWellness.trend = (healthStub r₂).overallWellness.trend ∧
    (healthStub r₁).overallWellness.primaryConcerns =
      (healthStub r₂).overallWellness.primaryConcerns ∧
    (healthStub r₁).overallWellness.score = 75 + (r₁ : ℚ) ∧
    75 ≤ (healthStub r₁).overallWellness.score ∧
    (healthStub r₁).overallWellness.score ≤ 89 := by
  refine ⟨rfl, rfl, rfl, rfl, rfl, rfl, rfl, rfl, ?_, ?_⟩
  · show (75 : ℚ) ≤ 75 + (r₁ : ℚ)
    have : (0 : ℚ) ≤ (r₁ : ℚ) := by positivity
    linarith
  · show (75 : ℚ) + (r₁ : ℚ) ≤ 89
    have : (r₁ : ℚ) ≤ 14 := by
      exact_mod_cast Nat.le_of_lt_succ h₁
    linarith

/-- C9 witness: the amended statement holds at the extreme random draws 0
and 14. -/
theorem health_stub_static_except_score_witness :
    (healthStub 0).physicalHealth = (healthStub 14).physicalHealth ∧
    (healthStub 0).mentalHealth = (healthStub 14).mentalHealth ∧
    (healthStub 0).recommendations = (healthStub 14).recommendations ∧
    (healthStub 0).therapeuticInsights = (healthStub 14).therapeuticInsights ∧
    (healthStub 0).alerts = (healthStub 14).alerts ∧
    (healthStub 0).overallWellness.trend = (healthStub 14).overallWellness.trend ∧
    (healthStub 0).overallWellness.primaryConcerns =
      (healthStub 14).overallWellness.primaryConcerns ∧
    (healthStub 0).overallWellness.score = 75 + ((0 : ℕ) : ℚ) ∧
    75 ≤ (healthStub 0).overallWellness.score ∧
    (healthStub 0).overallWellness.score ≤ 89 :=
  health_stub_static_except_score 0 14 (by decide) (by decide)

/-- C10: the merge substitutes its defaults through JavaScript `||`, so any
falsy upstream value is replaced, not only a missing one: a fused confidence
of 0 becomes 0.5, a distress level of 0 becomes 0.3, a false follow-up flag
is indistinguishable from an absent safety output, and an empty response
string is replaced by the apology message. -/
theorem merge_falsy_defaults (timestamp : String) (emotion : Option EmotionAnalysisOutput)
    (health : Option WearablesAnalysisOutput) (ctx : Option ContextManagementOutput)
    (sOpt : Option SafetyOutput) (rOpt : Option ResponseOutput)
    (ea : EmotionAnalysisOutput) (sOut : SafetyOutput) (rOut : ResponseOutput) :
    (ea.fusedEmotions.confidence = 0 →
      (mergeOutputs timestamp (some ea) health ctx sOpt rOpt).emotionAnalysis.confidence
        = 0.5) ∧
    (ea.fusedEmotions.distressLevel = 0 →
      (mergeOutputs timestamp (some ea) health ctx sOpt rOpt).emotionAnalysis.distressLevel
        = 0.3) ∧
    ((mergeOutputs timestamp emotion health ctx (some { sOut with followUp := false })
        rOpt).safetyAssessment.followUp =
      (mergeOutputs timestamp emotion health ctx none rOpt).safetyAssessment.followUp) ∧
    (rOut.response = "" →
      (mergeOutputs timestamp emotion health ctx sOpt (some rOut)).response =
        "I apologize, but I encountered an issue generating a response. Please try again.") := by
  refine ⟨?_, ?_, ?_, ?_⟩
  · intro h
    simp [mergeOutputs, jsOrNum, h]
  · intro h
    simp [mergeOutputs, jsOrNum, h]
  · rfl
  · intro h
    simp [mergeOutputs, jsOrStr, h]

/-- C10 witness: concrete falsy upstream values (zero confidence, zero
distress, false follow-up, empty response) are all replaced by the literal
defaults. -/
theorem merge_falsy_defaults_witness :
    ((mergeOutputs "t" (some zeroConfidenceEmotion) none none none
        none).emotionAnalysis.confidence = 0.5) ∧
    ((mergeOutputs "t" (some zeroConfidenceEmotion) none none none
        none).emotionAnalysis.distressLevel = 0.3) ∧
    ((mergeOutputs "t" none none none (some { sampleSafetyOutput with followUp := false })
        none).safetyAssessment.followUp =
      (mergeOutputs "t" none none none none none).safetyAssessment.followUp) ∧
    ((mergeOutputs "t" none none none none (some emptyResponseOutput)).response =
      "I apologize, but I encountered an issue generating a response. Please try again.") := by
  obtain ⟨h1, h2, h3, h4⟩ := merge_falsy_defaults "t" none none none none none
    zeroConfidenceEmotion sampleSafetyOutput emptyResponseOutput
  exact ⟨h1 rfl, h2 rfl, h3, h4 rfl⟩

end MitrAI
